import Mathlib

/-!
Shallow embedding of the Discord onboarding bot (`bot.py`) and proofs about
its persistence adapter, session map and interaction handlers.

Modelling conventions:
* The Google Sheets worksheet is a list of rows, each row a list of cell
  strings; the remote service's availability is an explicit boolean flag on
  each operation (`true` = the remote call succeeds, `false` = it raises).
* The module-level dict `user_data_store` is an association list from the
  stringified Discord user id to the per-user temporary record.
* A Python exception that a handler does not catch is an `Except.error`
  result; code that catches the exception returns its fallback value.
* `datetime.now()` is an explicit `timestamp` argument.
-/

set_option autoImplicit false

namespace OnboardingBot

/-- A worksheet row: one cell string per column. -/
abbrev Row := List String

/-- The worksheet contents: a list of rows, header row first when present. -/
abbrev Sheet := List Row

/-- Python exceptions that escape the embedded functions uncaught. -/
inductive PyExn where
  | remoteCallRaised
  | keyError
deriving DecidableEq

/-- The per-user temporary record kept in `user_data_store` during the flow. -/
structure UserData where
  country : String
  interests : String
  platforms : String
  app_link : String
  full_name : String
deriving DecidableEq

/-- The in-memory session map `user_data_store`, keyed by stringified user id. -/
abbrev Store := List (String × UserData)

/-- Dict assignment `user_data_store[user_id] = v`. -/
def storeSet (store : Store) (userId : String) (v : UserData) : Store :=
  (userId, v) :: store.filter (fun p => p.1 != userId)

/-- Dict removal `user_data_store.pop(user_id, None)`. -/
def storePop (store : Store) (userId : String) : Store :=
  store.filter (fun p => p.1 != userId)

/-- Header row written by `_initialize_google_sheets` when the worksheet is
freshly created. -/
def headerRow : Row :=
  ["Discord ID", "Username", "Country", "Community Interests", "Platforms",
   "App Link", "Full Name", "Onboarding Completed On"]

/-- Worksheet bootstrapping: a freshly created worksheet receives exactly the
header row; an existing worksheet is used as is. -/
def setupWorksheet (freshlyCreated : Bool) (existing : Sheet) : Sheet :=
  if freshlyCreated then [headerRow] else existing

/-- The data row appended by `add_user_data`, in source column order. -/
def mkUserRow (discord_id username country interests platforms app_link
    full_name timestamp : String) : Row :=
  [discord_id, username, country, interests, platforms, app_link, full_name,
   timestamp]

/-- `GoogleSheetsManager.add_user_data`: appends one row; the whole body is
wrapped in try/except, so a failing remote append (`appendOk = false`) is
caught, logged, and reported as `False` with the sheet unchanged. -/
def add_user_data (appendOk : Bool) (sheet : Sheet)
    (discord_id username country interests platforms app_link
     full_name timestamp : String) : Sheet × Bool :=
  if appendOk then
    (sheet ++ [mkUserRow discord_id username country interests platforms
       app_link full_name timestamp], true)
  else
    (sheet, false)

/-- `worksheet.col_values(1)`: the first cell of every row. -/
def colValues1 (sheet : Sheet) : List String :=
  sheet.map (fun r => r.headD "")

/-- Header removal in `check_user_exists`: drop the leading cell when the
list is non-empty and starts with the header label. -/
def dropHeaderCell (discord_ids : List String) : List String :=
  match discord_ids with
  | [] => discord_ids
  | h :: t => if h == "Discord ID" then t else h :: t

/-- `GoogleSheetsManager.check_user_exists`: reads column 1, drops the header
cell when present, and tests membership of the stringified id. The remote
`col_values` call is not wrapped in try/except, so its failure
(`colOk = false`) propagates to the caller as an exception. -/
def check_user_exists (colOk : Bool) (sheet : Sheet) (discord_id : String) :
    Except PyExn Bool :=
  if colOk then
    Except.ok (decide (discord_id ∈ dropHeaderCell (colValues1 sheet)))
  else
    Except.error PyExn.remoteCallRaised

/-- `GoogleSheetsManager.get_all_users`: all records after the header row; any
exception from the remote read (`getOk = false`) is caught, logged, and an
empty list is returned. -/
def get_all_users (getOk : Bool) (sheet : Sheet) : List Row :=
  if getOk then sheet.drop 1 else []

/-- The static country list, verbatim from the source. -/
def countries : List String :=
  ["Afghanistan", "Albania", "Algeria", "Andorra", "Angola",
   "Antigua and Barbuda", "Argentina", "Armenia", "Australia", "Austria",
   "Azerbaijan", "Bahamas", "Bahrain", "Bangladesh", "Barbados", "Belarus",
   "Belgium", "Belize", "Benin", "Bhutan", "Bolivia",
   "Bosnia and Herzegovina", "Botswana", "Brazil", "Brunei", "Bulgaria",
   "Burkina Faso", "Burundi", "Cabo Verde", "Cambodia", "Cameroon", "Canada",
   "Central African Republic", "Chad", "Chile", "China", "Colombia",
   "Comoros", "Congo", "Costa Rica", "Croatia", "Cuba", "Cyprus",
   "Czech Republic", "Denmark", "Djibouti", "Dominica", "Dominican Republic",
   "Ecuador", "Egypt", "El Salvador", "Equatorial Guinea", "Eritrea",
   "Estonia", "Eswatini", "Ethiopia", "Fiji", "Finland", "France", "Gabon",
   "Gambia", "Georgia", "Germany", "Ghana", "Greece", "Grenada", "Guatemala",
   "Guinea", "Guinea-Bissau", "Guyana", "Haiti", "Honduras", "Hungary",
   "Iceland", "India", "Indonesia", "Iran", "Iraq", "Ireland", "Israel",
   "Italy", "Jamaica", "Japan", "Jordan", "Kazakhstan", "Kenya", "Kiribati",
   "Korea, North", "Korea, South", "Kuwait", "Kyrgyzstan", "Laos", "Latvia",
   "Lebanon", "Lesotho", "Liberia", "Libya", "Liechtenstein", "Lithuania",
   "Luxembourg", "Madagascar", "Malawi", "Malaysia", "Maldives", "Mali",
   "Malta", "Marshall Islands", "Mauritania", "Mauritius", "Mexico",
   "Micronesia", "Moldova", "Monaco", "Mongolia", "Montenegro", "Morocco",
   "Mozambique", "Myanmar", "Namibia", "Nauru", "Nepal", "Netherlands",
   "New Zealand", "Nicaragua", "Niger", "Nigeria", "North Macedonia",
   "Norway", "Oman", "Pakistan", "Palau", "Palestine", "Panama",
   "Papua New Guinea", "Paraguay", "Peru", "Philippines", "Poland",
   "Portugal", "Qatar", "Romania", "Russia", "Rwanda",
   "Saint Kitts and Nevis", "Saint Lucia",
   "Saint Vincent and the Grenadines", "Samoa", "San Marino",
   "Sao Tome and Principe", "Saudi Arabia", "Senegal", "Serbia",
   "Seychelles", "Sierra Leone", "Singapore", "Slovakia", "Slovenia",
   "Solomon Islands", "Somalia", "South Africa", "South Sudan", "Spain",
   "Sri Lanka", "Sudan", "Suriname", "Sweden", "Switzerland", "Syria",
   "Taiwan", "Tajikistan", "Tanzania", "Thailand", "Timor-Leste", "Togo",
   "Tonga", "Trinidad and Tobago", "Tunisia", "Turkey", "Turkmenistan",
   "Tuvalu", "Uganda", "Ukraine", "United Arab Emirates", "United Kingdom",
   "United States", "Uruguay", "Uzbekistan", "Vanuatu", "Vatican City",
   "Venezuela", "Vietnam", "Yemen", "Zambia", "Zimbabwe"]

/-- Does the second character list start with the first one? -/
def charsStart : List Char → List Char → Bool
  | [], _ => true
  | _ :: _, [] => false
  | a :: as, b :: bs => a == b && charsStart as bs

/-- Does the second character list contain the first as a contiguous run? -/
def charsContain (sub : List Char) : List Char → Bool
  | [] => sub.isEmpty
  | h :: t => charsStart sub (h :: t) || charsContain sub t

/-- Python substring membership `sub in hay` on strings. -/
def strContain (sub hay : String) : Bool :=
  charsContain sub.data hay.data

/-- Python `str.lower()` (the country names are ASCII). -/
def lowerStr (s : String) : String :=
  ⟨s.data.map Char.toLower⟩

/-- `country_autocomplete`: case-insensitive substring filter over the static
country list, truncated to the first 25 suggestions. -/
def country_autocomplete (current : String) : List String :=
  let current_lower := lowerStr current
  let suggestions :=
    countries.filter (fun country => strContain current_lower (lowerStr country))
  suggestions.take 25

/-- The distinct user-visible responses the handlers produce. -/
inductive BotMessage where
  | interestsPrompt (country : String)
  | platformsPrompt
  | appLinkPrompt
  | namePrompt
  | alreadyOnboardedPrompt
  | onboardingComplete
  | persistenceFailure
  | sessionExpired
deriving DecidableEq

/-- The session record stored by the `/onboarding` command handler. -/
def freshSession (country : String) : UserData :=
  { country := country, interests := "", platforms := "", app_link := "",
    full_name := "" }

/-- The `/onboarding` slash-command handler: consults `check_user_exists`
(whose uncaught exception propagates), stores a fresh session either way, and
answers with the already-onboarded prompt or the interests prompt. -/
def onboarding (colOk : Bool) (store : Store) (sheet : Sheet)
    (userId country : String) : Except PyExn (Store × BotMessage) :=
  match check_user_exists colOk sheet userId with
  | Except.error e => Except.error e
  | Except.ok true =>
      Except.ok (storeSet store userId (freshSession country),
        BotMessage.alreadyOnboardedPrompt)
  | Except.ok false =>
      Except.ok (storeSet store userId (freshSession country),
        BotMessage.interestsPrompt country)

/-- Python `",".join(values)`. -/
def joinComma (values : List String) : String :=
  String.intercalate "," values

/-- `InvolvementSelect.callback`: records the chosen interests when a session
exists, and always edits the message to the platform prompt; it performs no
persistence call, so the sheet passes through unchanged. -/
def involvementCallback (store : Store) (sheet : Sheet) (userId : String)
    (values : List String) : Store × Sheet × BotMessage :=
  let selected_interests := joinComma values
  let store2 :=
    match store.lookup userId with
    | some ud => storeSet store userId { ud with interests := selected_interests }
    | none => store
  (store2, sheet, BotMessage.platformsPrompt)

/-- `PlatformSelect.callback`: records the chosen platforms when a session
exists, and always edits the message to the app-link prompt; it performs no
persistence call, so the sheet passes through unchanged. -/
def platformCallback (store : Store) (sheet : Sheet) (userId : String)
    (values : List String) : Store × Sheet × BotMessage :=
  let selected_platforms := joinComma values
  let store2 :=
    match store.lookup userId with
    | some ud => storeSet store userId { ud with platforms := selected_platforms }
    | none => store
  (store2, sheet, BotMessage.appLinkPrompt)

/-- `AppLinkModal.on_submit`: records the link when a session exists and moves
to the name prompt. -/
def appLinkModalOnSubmit (store : Store) (sheet : Sheet)
    (userId link : String) : Store × Sheet × BotMessage :=
  let store2 :=
    match store.lookup userId with
    | some ud => storeSet store userId { ud with app_link := link }
    | none => store
  (store2, sheet, BotMessage.namePrompt)

/-- `SkipAppLinkButton.callback`: records an empty link when a session exists
and moves to the name prompt. -/
def skipAppLinkCallback (store : Store) (sheet : Sheet) (userId : String) :
    Store × Sheet × BotMessage :=
  let store2 :=
    match store.lookup userId with
    | some ud => storeSet store userId { ud with app_link := "" }
    | none => store
  (store2, sheet, BotMessage.namePrompt)

/-- `NameModal.on_submit`: the completion handler. With a live session it
stores the typed name, hands the accumulated record to `add_user_data`, and on
success pops the session and reports completion; on write failure it reports
the error apology and keeps the session and the sheet as they were. With no
session it reports the session-expired message. -/
def nameModalOnSubmit (appendOk : Bool) (store : Store) (sheet : Sheet)
    (userId username nameInput timestamp : String) :
    Store × Sheet × BotMessage :=
  match store.lookup userId with
  | some ud =>
      let ud2 := { ud with full_name := nameInput }
      let result := add_user_data appendOk sheet userId username ud2.country
        ud2.interests ud2.platforms ud2.app_link ud2.full_name timestamp
      if result.2 then
        (storePop (storeSet store userId ud2) userId, result.1,
         BotMessage.onboardingComplete)
      else
        (storeSet store userId ud2, result.1, BotMessage.persistenceFailure)
  | none => (store, sheet, BotMessage.sessionExpired)

/-- `SkipNameButton.callback`: identical completion path with an empty name. -/
def skipNameCallback (appendOk : Bool) (store : Store) (sheet : Sheet)
    (userId username timestamp : String) : Store × Sheet × BotMessage :=
  match store.lookup userId with
  | some ud =>
      let ud2 := { ud with full_name := "" }
      let result := add_user_data appendOk sheet userId username ud2.country
        ud2.interests ud2.platforms ud2.app_link "" timestamp
      if result.2 then
        (storePop (storeSet store userId ud2) userId, result.1,
         BotMessage.onboardingComplete)
      else
        (storeSet store userId ud2, result.1, BotMessage.persistenceFailure)
  | none => (store, sheet, BotMessage.sessionExpired)

/-- `AlreadyOnboardedView.continue_button`: indexes
`user_data_store[user_id]` with no membership check, so a missing key raises
`KeyError`; with a session it re-shows the interests prompt. -/
def continueAnywayCallback (store : Store) (userId : String) :
    Except PyExn BotMessage :=
  match store.lookup userId with
  | some ud => Except.ok (BotMessage.interestsPrompt ud.country)
  | none => Except.error PyExn.keyError

/-- Number of worksheet rows whose first cell equals the given discord id. -/
def countId (discord_id : String) (sheet : Sheet) : Nat :=
  (sheet.filter (fun r => r.headD "" == discord_id)).length

/-- A sample completed-onboarding data row, used for concrete instances. -/
def sampleRow : Row :=
  mkUserRow "1" "user" "Canada" "feedback,network" "iOS - Swift" "" ""
    "2024-01-01 00:00:00"

/-- A sample worksheet holding the header row and one completed record. -/
def sampleSheet : Sheet := [headerRow, sampleRow]

/-- A sample session map holding one fresh session for user id `1`. -/
def sampleStore : Store := [("1", freshSession "Canada")]

/-- Looking up a key straight after setting it yields the stored value. -/
theorem lookup_storeSet_self (store : Store) (k : String) (v : UserData) :
    (storeSet store k v).lookup k = some v := by
  simp [storeSet, List.lookup]

/-- Looking up a key straight after popping it yields nothing. -/
theorem lookup_storePop_self (store : Store) (k : String) :
    (storePop store k).lookup k = none := by
  induction store with
  | nil => rfl
  | cons p t ih =>
      rw [storePop, List.filter_cons]
      by_cases h : p.1 = k
      · have hb : (p.1 != k) = false := by simp [bne, h]
        rw [if_neg (by simp [hb])]
        exact ih
      · have hb : (p.1 != k) = true := by simp [bne, h]
        rw [if_pos hb, List.lookup_cons]
        have : (k == p.1) = false := by
          simp [beq_eq_false_iff_ne]
          exact fun hk => h hk.symm
        rw [this]
        exact ih

/-- Appending a row for an id adds exactly one to that id's row count. -/
theorem countId_append_self (sheet : Sheet)
    (d u c i p a f t : String) :
    countId d (sheet ++ [mkUserRow d u c i p a f t]) = countId d sheet + 1 := by
  simp [countId, mkUserRow, List.filter_append, List.filter]

/-- Row counts add up over sheet concatenation. -/
theorem countId_append (x : String) (s1 s2 : Sheet) :
    countId x (s1 ++ s2) = countId x s1 + countId x s2 := by
  simp [countId, List.filter_append]

/-- Appending a row never decreases any id's row count, and leaves other ids'
counts unchanged. -/
theorem countId_append_other (sheet : Sheet) (x : String)
    (d u c i p a f t : String) (hne : x ≠ d) :
    countId x (sheet ++ [mkUserRow d u c i p a f t]) = countId x sheet := by
  have hd : (d == x) = false := by
    simp [beq_eq_false_iff_ne]
    exact fun hk => hne hk.symm
  simp [countId, List.filter_append, List.filter, mkUserRow, List.headD, hd]

/-- For an id other than the header label, dropping the header cell does not
change membership. -/
theorem mem_dropHeaderCell (l : List String) (x : String)
    (hne : x ≠ "Discord ID") : x ∈ dropHeaderCell l ↔ x ∈ l := by
  cases l with
  | nil => simp [dropHeaderCell]
  | cons h t =>
      by_cases hh : (h == "Discord ID") = true
      · have hhd : h = "Discord ID" := eq_of_beq hh
        simp [dropHeaderCell, hh, hhd, List.mem_cons, hne]
      · simp [dropHeaderCell, hh]

/-- Appending a data row appends its discord id to column 1. -/
theorem colValues1_append_row (sheet : Sheet) (d u c i p a f t : String) :
    colValues1 (sheet ++ [mkUserRow d u c i p a f t]) =
      colValues1 sheet ++ [d] := by
  simp [colValues1, mkUserRow, List.headD]

/-- C1: if the persistence write at completion fails, `NameModal.on_submit`
answers with the persistence-failure message, keeps the in-memory session for
that user (only its name field updated), and leaves the worksheet unchanged;
re-running the same final submission once the backend works again completes
and leaves exactly one durable row for that user. -/
theorem write_failure_keeps_session_and_retry_adds_one_row
    (store : Store) (sheet : Sheet)
    (userId username nameInput ts ts2 : String) (ud : UserData)
    (hlook : store.lookup userId = some ud)
    (hzero : countId userId sheet = 0) :
    nameModalOnSubmit false store sheet userId username nameInput ts =
      (storeSet store userId { ud with full_name := nameInput }, sheet,
       BotMessage.persistenceFailure) ∧
    (storeSet store userId { ud with full_name := nameInput }).lookup userId =
      some { ud with full_name := nameInput } ∧
    (nameModalOnSubmit true
        (storeSet store userId { ud with full_name := nameInput }) sheet
        userId username nameInput ts2).2.2 = BotMessage.onboardingComplete ∧
    countId userId (nameModalOnSubmit true
        (storeSet store userId { ud with full_name := nameInput }) sheet
        userId username nameInput ts2).2.1 = 1 := by
  refine ⟨?_, lookup_storeSet_self store userId _, ?_, ?_⟩
  · simp [nameModalOnSubmit, hlook, add_user_data]
  · simp [nameModalOnSubmit, lookup_storeSet_self, add_user_data]
  · simp [nameModalOnSubmit, lookup_storeSet_self, add_user_data,
      countId_append_self, hzero]

/-- Concrete instance of the write-failure retry behaviour for the sample
session over a header-only worksheet. -/
theorem write_failure_keeps_session_witness :
    sampleStore.lookup "1" = some (freshSession "Canada") ∧
    countId "1" [headerRow] = 0 ∧
    nameModalOnSubmit false sampleStore [headerRow] "1" "user" "Jo" "t1" =
      (storeSet sampleStore "1" { freshSession "Canada" with full_name := "Jo" },
       [headerRow], BotMessage.persistenceFailure) ∧
    countId "1" (nameModalOnSubmit true
        (storeSet sampleStore "1" { freshSession "Canada" with full_name := "Jo" })
        [headerRow] "1" "user" "Jo" "t2").2.1 = 1 := by
  have h := write_failure_keeps_session_and_retry_adds_one_row
    sampleStore [headerRow] "1" "user" "Jo" "t1" "t2" (freshSession "Canada")
    (by rfl) (by rfl)
  exact ⟨by rfl, by rfl, h.1, h.2.2.2⟩

/-- C2 counterexample: on a select-menu callback with no in-memory session
for the acting user, the handlers do not answer with the session-expired
message; they answer with the next step's prompt. -/
theorem midflow_missing_session_no_expiry_message :
    (involvementCallback [] [headerRow] "1" ["feedback"]).2.2 ≠
      BotMessage.sessionExpired ∧
    (involvementCallback [] [headerRow] "1" ["feedback"]).2.2 =
      BotMessage.platformsPrompt ∧
    (platformCallback [] [headerRow] "1" ["iOS - Swift"]).2.2 ≠
      BotMessage.sessionExpired ∧
    (platformCallback [] [headerRow] "1" ["iOS - Swift"]).2.2 =
      BotMessage.appLinkPrompt := by
  decide

/-- C2 amended: with no session for the acting user, the interests and
platform select callbacks leave the session map and the worksheet unchanged
and silently advance to the next prompt, with no session-expired report. -/
theorem midflow_missing_session_silent_advance
    (store : Store) (sheet : Sheet) (userId : String) (values : List String)
    (h : store.lookup userId = none) :
    involvementCallback store sheet userId values =
      (store, sheet, BotMessage.platformsPrompt) ∧
    platformCallback store sheet userId values =
      (store, sheet, BotMessage.appLinkPrompt) := by
  simp [involvementCallback, platformCallback, h]

/-- Concrete instance of the silent mid-flow advance on an empty session
map. -/
theorem midflow_missing_session_silent_advance_witness :
    ([] : Store).lookup "1" = none ∧
    involvementCallback [] [headerRow] "1" ["feedback"] =
      ([], [headerRow], BotMessage.platformsPrompt) := by
  exact ⟨rfl,
    (midflow_missing_session_silent_advance [] [headerRow] "1" ["feedback"]
      rfl).1⟩

/-- C3: when the durable store already has a record for the user, the
onboarding command answers with the already-onboarded prompt (the
continue-or-abort choice), never with the interests prompt, and only the
continue button advances the flow to the interests prompt. -/
theorem repeat_onboarding_prompts_choice
    (store : Store) (sheet : Sheet) (userId country : String)
    (h : check_user_exists true sheet userId = Except.ok true) :
    onboarding true store sheet userId country =
      Except.ok (storeSet store userId (freshSession country),
        BotMessage.alreadyOnboardedPrompt) ∧
    (∀ (st : Store) (c : String),
      onboarding true store sheet userId country ≠
        Except.ok (st, BotMessage.interestsPrompt c)) ∧
    continueAnywayCallback (storeSet store userId (freshSession country))
        userId = Except.ok (BotMessage.interestsPrompt country) := by
  refine ⟨?_, ?_, ?_⟩
  · simp [onboarding, h]
  · intro st c hcon
    rw [onboarding, h] at hcon
    simp at hcon
  · simp [continueAnywayCallback, lookup_storeSet_self, freshSession]

/-- Concrete instance of the continue-or-abort prompt on the sample sheet,
which already holds a record for user id `1`. -/
theorem repeat_onboarding_prompts_choice_witness :
    check_user_exists true sampleSheet "1" = Except.ok true ∧
    onboarding true [] sampleSheet "1" "Canada" =
      Except.ok (storeSet [] "1" (freshSession "Canada"),
        BotMessage.alreadyOnboardedPrompt) := by
  exact ⟨rfl,
    (repeat_onboarding_prompts_choice [] sampleSheet "1" "Canada" rfl).1⟩

/-- C4: country autocomplete returns at most 25 suggestions, keeps them in the
static list's original order, suggests only case-insensitive substring
matches, misses no match when there are at most 25, includes Poland, Ireland
and Iceland for the query `lan` while excluding Spain, and answers the empty
query with the first 25 countries. -/
theorem country_autocomplete_spec :
    (∀ q : String, (country_autocomplete q).length ≤ 25) ∧
    (∀ q : String, (country_autocomplete q).Sublist countries) ∧
    (∀ (q c : String), c ∈ country_autocomplete q →
       strContain (lowerStr q) (lowerStr c) = true) ∧
    (∀ (q c : String), c ∈ countries →
       strContain (lowerStr q) (lowerStr c) = true →
       (countries.filter
         (fun x => strContain (lowerStr q) (lowerStr x))).length ≤ 25 →
       c ∈ country_autocomplete q) ∧
    "Poland" ∈ country_autocomplete "lan" ∧
    "Ireland" ∈ country_autocomplete "lan" ∧
    "Iceland" ∈ country_autocomplete "lan" ∧
    "Spain" ∉ country_autocomplete "lan" ∧
    country_autocomplete "" = countries.take 25 := by
  refine ⟨?_, ?_, ?_, ?_, by decide, by decide, by decide, by decide,
    by decide⟩
  · intro q
    simp only [country_autocomplete, List.length_take]
    exact min_le_left _ _
  · intro q
    simp only [country_autocomplete]
    exact (List.take_sublist _ _).trans (List.filter_sublist _)
  · intro q c hc
    simp only [country_autocomplete] at hc
    exact (List.mem_filter.mp ((List.take_subset _ _) hc)).2
  · intro q c hmem hmatch hlen
    simp only [country_autocomplete]
    rw [List.take_of_length_le hlen]
    exact List.mem_filter.mpr ⟨hmem, hmatch⟩

/-- Concrete instance of autocomplete completeness: the query `lan` has at
most 25 matches, so the matching country Poland is suggested. -/
theorem country_autocomplete_spec_witness :
    "Poland" ∈ countries ∧
    strContain (lowerStr "lan") (lowerStr "Poland") = true ∧
    (countries.filter
      (fun x => strContain (lowerStr "lan") (lowerStr x))).length ≤ 25 ∧
    "Poland" ∈ country_autocomplete "lan" := by
  exact ⟨by decide, by decide, by decide,
    country_autocomplete_spec.2.2.2.1 "lan" "Poland" (by decide) (by decide)
      (by decide)⟩

/-- C5: `check_user_exists` answers false for a user with no row in the sheet
and answers true immediately after a successful `add_user_data` write of that
user's record. -/
theorem exists_false_before_true_after_completion
    (sheet : Sheet)
    (userId username country interests platforms app_link full_name ts : String)
    (hne : userId ≠ "Discord ID")
    (habs : userId ∉ colValues1 sheet) :
    check_user_exists true sheet userId = Except.ok false ∧
    check_user_exists true
        (add_user_data true sheet userId username country interests platforms
          app_link full_name ts).1 userId = Except.ok true := by
  constructor
  · simp [check_user_exists, mem_dropHeaderCell _ _ hne, habs]
  · simp [check_user_exists, add_user_data, colValues1_append_row,
      mem_dropHeaderCell _ _ hne]

/-- Concrete instance: user id `1` is absent from a header-only sheet and
present right after their record is appended. -/
theorem exists_false_before_true_after_completion_witness :
    ("1" : String) ≠ "Discord ID" ∧
    "1" ∉ colValues1 [headerRow] ∧
    check_user_exists true [headerRow] "1" = Except.ok false ∧
    check_user_exists true
      (add_user_data true [headerRow] "1" "user" "Canada" "feedback"
        "iOS - Swift" "" "" "t").1 "1" = Except.ok true := by
  have h := exists_false_before_true_after_completion [headerRow] "1" "user"
    "Canada" "feedback" "iOS - Swift" "" "" "t" (by decide) (by decide)
  exact ⟨by decide, by decide, h.1, h.2⟩

/-- C6 counterexample: a failing remote read inside `check_user_exists` is
not caught; it escapes to the caller as an exception rather than being
surfaced as a persistence-failure result. -/
theorem check_user_exists_failure_uncaught :
    check_user_exists false sampleSheet "1" =
      Except.error PyExn.remoteCallRaised := rfl

/-- C6 amended: a remote failure in `add_user_data` is caught and surfaced as
a `False` result with the sheet unchanged, a remote failure in
`get_all_users` is caught and surfaced as an empty list, but a remote failure
in `check_user_exists` propagates uncaught. -/
theorem sheets_failure_handling_per_operation :
    ∀ (sheet : Sheet) (d u c i p a f t id : String),
    add_user_data false sheet d u c i p a f t = (sheet, false) ∧
    get_all_users false sheet = [] ∧
    check_user_exists false sheet id =
      Except.error PyExn.remoteCallRaised :=
  fun _ _ _ _ _ _ _ _ _ _ => ⟨rfl, rfl, rfl⟩

/-- C7 counterexample: the header row written on worksheet creation is not
the schema spelling `Discord ID, Username, Country, Interests, Platforms,
App Link, Full Name, Timestamp`. -/
theorem header_row_ne_spec_schema :
    headerRow ≠ ["Discord ID", "Username", "Country", "Interests",
      "Platforms", "App Link", "Full Name", "Timestamp"] := by
  decide

/-- C7 amended: a freshly created worksheet holds exactly the header row,
whose eight columns align one-for-one with the eight fields of every data row
written by `add_user_data`, with the interests column labelled
`Community Interests` and the timestamp column labelled
`Onboarding Completed On`. -/
theorem header_row_contents_aligned :
    (∀ existing : Sheet, setupWorksheet true existing = [headerRow]) ∧
    headerRow = ["Discord ID", "Username", "Country", "Community Interests",
      "Platforms", "App Link", "Full Name", "Onboarding Completed On"] ∧
    headerRow.length = 8 ∧
    (∀ d u c i p a f t : String,
      (mkUserRow d u c i p a f t).length = 8 ∧
      (mkUserRow d u c i p a f t).getD 0 "" = d ∧
      (mkUserRow d u c i p a f t).getD 3 "" = i ∧
      (mkUserRow d u c i p a f t).getD 7 "" = t) ∧
    headerRow.getD 0 "" = "Discord ID" ∧
    headerRow.getD 3 "" = "Community Interests" ∧
    headerRow.getD 7 "" = "Onboarding Completed On" := by
  exact ⟨fun _ => rfl, rfl, rfl,
    fun d u c i p a f t => ⟨rfl, rfl, rfl, rfl⟩, rfl, rfl, rfl⟩

/-- C8: on successful completion, through the name modal or the skip-name
button, the in-memory session for the acting user is removed, so a later
lookup for that user finds no session. -/
theorem session_deleted_after_successful_completion
    (store : Store) (sheet : Sheet)
    (userId username nameInput ts : String) (ud : UserData)
    (h : store.lookup userId = some ud) :
    ((nameModalOnSubmit true store sheet userId username nameInput
        ts).1).lookup userId = none ∧
    ((skipNameCallback true store sheet userId username ts).1).lookup
        userId = none := by
  constructor
  · simp [nameModalOnSubmit, h, add_user_data, lookup_storePop_self]
  · simp [skipNameCallback, h, add_user_data, lookup_storePop_self]

/-- Concrete instance: completing the sample session removes it from the
session map. -/
theorem session_deleted_after_successful_completion_witness :
    sampleStore.lookup "1" = some (freshSession "Canada") ∧
    ((nameModalOnSubmit true sampleStore [headerRow] "1" "user" "Jo"
        "t").1).lookup "1" = none := by
  exact ⟨rfl,
    (session_deleted_after_successful_completion sampleStore [headerRow] "1"
      "user" "Jo" "t" (freshSession "Canada") rfl).1⟩

/-- C9: `add_user_data` appends unconditionally, consulting no existing row,
so each successful completion adds one row for the user's id and two
successful completions leave two rows with the same id — the store enforces
no primary-key uniqueness. -/
theorem append_without_uniqueness_check :
    ∀ (sheet : Sheet)
      (uid username country interests platforms app_link n ts ts2 : String)
      (ud : UserData),
    (add_user_data true sheet uid username country interests platforms
      app_link n ts).1 =
      sheet ++ [mkUserRow uid username country interests platforms app_link
        n ts] ∧
    countId uid (add_user_data true sheet uid username country interests
      platforms app_link n ts).1 = countId uid sheet + 1 ∧
    (nameModalOnSubmit true [(uid, ud)] sheet uid username n ts).2.2 =
      BotMessage.onboardingComplete ∧
    countId uid (nameModalOnSubmit true [(uid, ud)]
        (nameModalOnSubmit true [(uid, ud)] sheet uid username n ts).2.1
        uid username n ts2).2.1 = countId uid sheet + 2 := by
  intro sheet uid username country interests platforms app_link n ts ts2 ud
  have hl : ([(uid, ud)] : Store).lookup uid = some ud := by
    simp [List.lookup]
  refine ⟨rfl, ?_, ?_, ?_⟩
  · simp [add_user_data, countId_append_self]
  · simp [nameModalOnSubmit, hl, add_user_data]
  · simp [nameModalOnSubmit, hl, add_user_data, countId_append, countId,
      List.filter, mkUserRow, List.headD]

/-- C10: pressing the continue-anyway button with no in-memory session for
the acting user raises an uncaught `KeyError`; no ordinary response — in
particular no session-expired message — is produced. -/
theorem continue_anyway_missing_session_keyerror
    (store : Store) (userId : String) (h : store.lookup userId = none) :
    continueAnywayCallback store userId = Except.error PyExn.keyError ∧
    ∀ m : BotMessage,
      continueAnywayCallback store userId ≠ Except.ok m := by
  constructor
  · simp [continueAnywayCallback, h]
  · intro m hc
    rw [continueAnywayCallback] at hc
    rw [h] at hc
    simp at hc

/-- Concrete instance: the continue-anyway handler on an empty session map
raises `KeyError`. -/
theorem continue_anyway_missing_session_keyerror_witness :
    ([] : Store).lookup "1" = none ∧
    continueAnywayCallback [] "1" = Except.error PyExn.keyError := by
  exact ⟨rfl, (continue_anyway_missing_session_keyerror [] "1" rfl).1⟩

end OnboardingBot
